import Mathlib

/-!
Verification of the budget-aware progressive training controller in
`flaml/model.py` (estimator classes `BaseEstimator`, `LGBMEstimator`,
`CatBoostEstimator`, `XGBoostEstimator`, `ARIMA`).

The stateful `fit` methods are embedded as pure functions over explicit
state records.  Wall-clock time is made explicit: each underlying
library training call is assigned a duration parameter (`d1`, `d2`,
`d3`), and all controller bookkeeping is taken to cost zero time, so
`time.time() - start_time` at a program point equals the sum of the
durations of the fits performed so far in the call.  Python dicts are
embedded as association lists with first-match lookup; Python `int()`
truncation toward zero and Python truthiness of floats/None are
modelled explicitly.
-/

/-- A Python scalar value as it occurs in an estimator config/params
dict: an int, a non-int number, a string, or `None`. -/
inductive PyVal where
  | int : ℤ → PyVal
  | rat : ℚ → PyVal
  | str : String → PyVal
  | pynone : PyVal
deriving DecidableEq, Repr

/-- A Python dict with string keys, embedded as an association list
(first occurrence of a key is its binding). -/
abbrev Config := List (String × PyVal)

/-- Dict lookup: value of the first binding of `k`, if any. -/
def lookupKey (k : String) : List (String × α) → Option α
  | [] => Option.none
  | (k1, v) :: rest => if k1 = k then some v else lookupKey k rest

/-- Dict deletion (`pop`/`del`): removes every binding of `k`. -/
def eraseKey (k : String) : List (String × α) → List (String × α)
  | [] => []
  | (k1, v) :: rest =>
      if k1 = k then eraseKey k rest else (k1, v) :: eraseKey k rest

/-- Dict assignment `d[k] = v`: replaces the first binding of `k` in
place, or appends a new binding if `k` is absent. -/
def setKey (k : String) (v : α) : List (String × α) → List (String × α)
  | [] => [(k, v)]
  | (k1, w) :: rest =>
      if k1 = k then (k, v) :: rest else (k1, w) :: setKey k v rest

theorem lookupKey_eraseKey_self (k : String) (c : List (String × α)) :
    lookupKey k (eraseKey k c) = Option.none := by
  induction c with
  | nil => rfl
  | cons p rest ih =>
      obtain ⟨k1, v⟩ := p
      by_cases h : k1 = k
      · simpa [eraseKey, h] using ih
      · simp [eraseKey, lookupKey, h, ih]

theorem lookupKey_eraseKey_ne (k k2 : String) (c : List (String × α))
    (h : k ≠ k2) : lookupKey k (eraseKey k2 c) = lookupKey k c := by
  induction c with
  | nil => rfl
  | cons p rest ih =>
      obtain ⟨k1, v⟩ := p
      simp only [eraseKey, lookupKey]
      by_cases h1 : k1 = k2
      · rw [if_pos h1, ih, if_neg (fun hh : k1 = k => h (hh.symm.trans h1))]
      · rw [if_neg h1]
        by_cases h2 : k1 = k
        · simp only [lookupKey, if_pos h2]
        · simp only [lookupKey, if_neg h2, ih]

theorem lookupKey_setKey_self (k : String) (v : α) (c : List (String × α)) :
    lookupKey k (setKey k v c) = some v := by
  induction c with
  | nil => simp [setKey, lookupKey]
  | cons p rest ih =>
      obtain ⟨k1, w⟩ := p
      simp only [setKey]
      by_cases h : k1 = k
      · rw [if_pos h]
        simp [lookupKey]
      · rw [if_neg h]
        simp only [lookupKey, if_neg h, ih]

theorem lookupKey_setKey_ne (k k2 : String) (v : α) (c : List (String × α))
    (h : k ≠ k2) : lookupKey k (setKey k2 v c) = lookupKey k c := by
  induction c with
  | nil =>
      simp only [setKey, lookupKey,
        if_neg (fun hk : k2 = k => h hk.symm)]
  | cons p rest ih =>
      obtain ⟨k1, w⟩ := p
      simp only [setKey]
      by_cases h1 : k1 = k2
      · rw [if_pos h1]
        simp only [lookupKey, if_neg (fun hh : k2 = k => h hh.symm),
          if_neg (fun hh : k1 = k => h (hh.symm.trans h1))]
      · rw [if_neg h1]
        by_cases h2 : k1 = k
        · simp only [lookupKey, if_pos h2]
        · simp only [lookupKey, if_neg h2, ih]

theorem eraseKey_of_lookup_none (k : String) (c : List (String × α))
    (h : lookupKey k c = Option.none) : eraseKey k c = c := by
  induction c with
  | nil => rfl
  | cons p rest ih =>
      obtain ⟨k1, v⟩ := p
      by_cases h1 : k1 = k
      · simp [lookupKey, h1] at h
      · simp only [lookupKey, h1, if_false] at h
        simp [eraseKey, h1, ih h]

/-- `BaseEstimator.config2params` (model.py:202-214): copy the config
and drop the `resources_per_trial` control key if present.  A guarded
`pop` of a present key is exactly `eraseKey`, and `eraseKey` of an
absent key is the identity, so the guard needs no separate case. -/
def baseConfig2params (c : Config) : Config :=
  eraseKey "resources_per_trial" c

/-- Python `(1 << v) - 1` for an integer `v`; a negative shift count
raises `ValueError`, modelled as `none`. -/
def pyShiftOneSub (v : ℤ) : Option ℤ :=
  if 0 ≤ v then some (2 ^ v.toNat - 1) else Option.none

/-- `LGBMEstimator.config2params` (model.py:436-440): apply the base
mapping, then, if `log_max_bin` is present, remove it and set
`max_bin` to `(1 << log_max_bin) - 1`.  A non-int value for
`log_max_bin` (or a negative one) raises in Python, modelled as
`none`. -/
def lgbmConfig2params (c : Config) : Option Config :=
  let p := baseConfig2params c
  match lookupKey "log_max_bin" p with
  | Option.none => some p
  | some (PyVal.int v) =>
      match pyShiftOneSub v with
      | some m =>
          some (setKey "max_bin" (PyVal.int m) (eraseKey "log_max_bin" p))
      | Option.none => Option.none
  | some _ => Option.none

theorem baseConfig2params_idem (c : Config) :
    baseConfig2params (baseConfig2params c) = baseConfig2params c := by
  unfold baseConfig2params
  exact eraseKey_of_lookup_none _ _ (lookupKey_eraseKey_self _ _)

theorem lgbmConfig2params_no_rpt (c p : Config)
    (h : lgbmConfig2params c = some p) :
    lookupKey "resources_per_trial" p = Option.none := by
  unfold lgbmConfig2params at h
  cases hl : lookupKey "log_max_bin" (baseConfig2params c) with
  | none =>
      simp only [hl] at h
      cases h
      exact lookupKey_eraseKey_self _ _
  | some v =>
      cases v with
      | int n =>
          simp only [hl] at h
          cases hs : pyShiftOneSub n with
          | none => simp [hs] at h
          | some m =>
              simp only [hs] at h
              cases h
              rw [lookupKey_setKey_ne _ _ _ _ (by decide),
                lookupKey_eraseKey_ne _ _ _ (by decide)]
              exact lookupKey_eraseKey_self _ _
      | rat q => simp [hl] at h
      | str s => simp [hl] at h
      | pynone => simp [hl] at h

theorem lgbmConfig2params_no_lmb (c p : Config)
    (h : lgbmConfig2params c = some p) :
    lookupKey "log_max_bin" p = Option.none := by
  unfold lgbmConfig2params at h
  cases hl : lookupKey "log_max_bin" (baseConfig2params c) with
  | none =>
      simp only [hl] at h
      cases h
      exact hl
  | some v =>
      cases v with
      | int n =>
          simp only [hl] at h
          cases hs : pyShiftOneSub n with
          | none => simp [hs] at h
          | some m =>
              simp only [hs] at h
              cases h
              rw [lookupKey_setKey_ne _ _ _ _ (by decide)]
              exact lookupKey_eraseKey_self _ _
      | rat q => simp [hl] at h
      | str s => simp [hl] at h
      | pynone => simp [hl] at h

/-- C7: the Configuration Mapper is idempotent — applying
`config2params` to its own output returns that output unchanged, both
for the base mapper and for the LGBM mapper. -/
theorem config2params_idem_c7 (c p : Config)
    (h : lgbmConfig2params c = some p) :
    baseConfig2params (baseConfig2params c) = baseConfig2params c ∧
    lgbmConfig2params p = some p := by
  refine ⟨baseConfig2params_idem c, ?_⟩
  have hrpt := lgbmConfig2params_no_rpt c p h
  have hlmb := lgbmConfig2params_no_lmb c p h
  have hbase : baseConfig2params p = p :=
    eraseKey_of_lookup_none _ _ hrpt
  unfold lgbmConfig2params
  rw [hbase]
  simp only [hlmb]

theorem config2params_idem_c7_witness :
    lgbmConfig2params
        [("log_max_bin", PyVal.int 8), ("resources_per_trial", PyVal.int 1),
          ("n_jobs", PyVal.int 4)] =
      some [("n_jobs", PyVal.int 4), ("max_bin", PyVal.int 255)] ∧
    baseConfig2params (baseConfig2params
        [("log_max_bin", PyVal.int 8), ("resources_per_trial", PyVal.int 1),
          ("n_jobs", PyVal.int 4)]) =
      baseConfig2params
        [("log_max_bin", PyVal.int 8), ("resources_per_trial", PyVal.int 1),
          ("n_jobs", PyVal.int 4)] ∧
    lgbmConfig2params [("n_jobs", PyVal.int 4), ("max_bin", PyVal.int 255)] =
      some [("n_jobs", PyVal.int 4), ("max_bin", PyVal.int 255)] := by
  have h : lgbmConfig2params
      [("log_max_bin", PyVal.int 8), ("resources_per_trial", PyVal.int 1),
        ("n_jobs", PyVal.int 4)] =
      some [("n_jobs", PyVal.int 4), ("max_bin", PyVal.int 255)] := by
    decide
  have h2 := config2params_idem_c7 _ _ h
  exact ⟨h, h2.1, h2.2⟩

/-- C8: when the config binds `log_max_bin` to an integer `v ≥ 0`, the
LGBM Configuration Mapper removes `log_max_bin` from its output and
sets `max_bin` to exactly `(1 <<< v) - 1 = 2 ^ v - 1`. -/
theorem log_max_bin_c8 (c p : Config) (v : ℤ) (hv : 0 ≤ v)
    (hl : lookupKey "log_max_bin" c = some (PyVal.int v))
    (h : lgbmConfig2params c = some p) :
    lookupKey "log_max_bin" p = Option.none ∧
    lookupKey "max_bin" p = some (PyVal.int (2 ^ v.toNat - 1)) := by
  have hlb : lookupKey "log_max_bin" (baseConfig2params c) =
      some (PyVal.int v) := by
    unfold baseConfig2params
    rw [lookupKey_eraseKey_ne _ _ _ (by decide)]
    exact hl
  refine ⟨lgbmConfig2params_no_lmb c p h, ?_⟩
  unfold lgbmConfig2params at h
  simp only [hlb] at h
  unfold pyShiftOneSub at h
  rw [if_pos hv] at h
  simp only [Option.some.injEq] at h
  rw [← h]
  exact lookupKey_setKey_self _ _ _

theorem log_max_bin_c8_witness :
    (0 : ℤ) ≤ 3 ∧
    lookupKey "log_max_bin"
        [("log_max_bin", PyVal.int 3), ("num_leaves", PyVal.int 4)] =
      some (PyVal.int 3) ∧
    lookupKey "log_max_bin"
        [("num_leaves", PyVal.int 4), ("max_bin", PyVal.int 7)] =
      Option.none ∧
    lookupKey "max_bin"
        [("num_leaves", PyVal.int 4), ("max_bin", PyVal.int 7)] =
      some (PyVal.int (2 ^ (3:ℤ).toNat - 1)) :=
  ⟨by decide, by decide,
    log_max_bin_c8
      [("log_max_bin", PyVal.int 3), ("num_leaves", PyVal.int 4)]
      [("num_leaves", PyVal.int 4), ("max_bin", PyVal.int 7)]
      3 (by decide) (by decide) (by decide)⟩

/-- Python truthiness of a float-or-None attribute (`not x` is true for
`None` and for `0.0`). -/
def pyTruthy : Option ℚ → Bool
  | Option.none => false
  | some v => v != 0

/-- Python `int()` applied to a float/rational: truncation toward
zero. -/
def truncInt (q : ℚ) : ℤ :=
  if 0 ≤ q then ⌊q⌋ else ⌈q⌉

/-- `LGBMEstimator.fit` time-per-iteration estimate (model.py:499-505):
`(t2 - t1) / (k - 1)` when `t2 > t1`, else `t1` when `t1` is truthy
(non-zero), else `0.001`.  `k` is the iteration count of the second
calibration fit. -/
def lgbmTimePerIter (t1 t2 : ℚ) (k : ℤ) : ℚ :=
  if t1 < t2 then (t2 - t1) / ((k : ℚ) - 1)
  else if t1 ≠ 0 then t1 else 1/1000

/-- `LGBMEstimator.fit` budget solver (model.py:512-518):
`min(n_iter, int((budget - wall_elapsed - t1) / time_per_iter + 1))`.
`elapsed` stands for `time.time() - start_time` at this program point
and `t1` is the stored duration of the 1-iteration calibration fit,
which the source subtracts in addition to the wall elapsed time. -/
def lgbmMaxIter (nIter : ℤ) (budget elapsed t1 tpi : ℚ) : ℤ :=
  min nIter (truncInt ((budget - elapsed - t1) / tpi + 1))

/-- `CatBoostEstimator.fit` time-per-iteration estimate
(model.py:928-932): `(elapsed2 - t1) / (k - 1)` where `elapsed2` is
the wall elapsed time after the second calibration fit; if that is
`<= 0` the estimate falls back to `t1` (with no epsilon). -/
def catTimePerIter (t1 elapsed2 : ℚ) (k : ℤ) : ℚ :=
  let est := (elapsed2 - t1) / ((k : ℚ) - 1)
  if est ≤ 0 then t1 else est

/-- `CatBoostEstimator.fit` budget solver (model.py:944-953):
identical to the LGBM one except for an extra division by
`train_times = 1`. -/
def catMaxIter (nIter : ℤ) (budget elapsed t1 tpi : ℚ) : ℤ :=
  min nIter (truncInt ((budget - elapsed - t1) / 1 / tpi + 1))

/-- Per-instance state of an `LGBMEstimator` relevant to `fit`:
the cached cost estimate (`_time_per_iter`, `_train_size`), the stored
first-calibration duration `_t1`, the configured
`params["n_estimators"]`, and the stored model `_model` (represented
by the iteration count it was trained with; `none` before any fit). -/
structure LGBMState where
  timePerIter : Option ℚ
  trainSize : ℤ
  t1 : ℚ
  nEstimators : ℤ
  model : Option ℤ
deriving DecidableEq, Repr

/-- Class-wide state of `CatBoostEstimator` relevant to `fit`; same
fields plus the `_smallmodel` slot holding the last calibration
model. -/
structure CatState where
  timePerIter : Option ℚ
  trainSize : ℤ
  t1 : ℚ
  nEstimators : ℤ
  model : Option ℤ
  smallmodel : Option ℤ
deriving DecidableEq, Repr

/-- Result of one `fit` call: the post-call state, the iteration
counts of the underlying library training runs performed by the call
(in order), and the returned elapsed seconds. -/
structure FitOutcome (σ : Type) where
  state : σ
  fits : List ℤ
  elapsed : ℚ
deriving Repr

/-- Cache-staleness test of `LGBMEstimator.fit` (model.py:488): probe
when `_time_per_iter` is falsy or the row count moved by more than 4
from the calibration size. -/
def lgbmNeedsProbe (st : LGBMState) (nRows : ℤ) : Bool :=
  !pyTruthy st.timePerIter || decide (4 < |st.trainSize - nRows|)

/-- Cache-staleness test of `CatBoostEstimator.fit` (model.py:900-903),
against the class-wide cache. -/
def catNeedsProbe (st : CatState) (nRows : ℤ) : Bool :=
  !pyTruthy st.timePerIter || decide (4 < |st.trainSize - nRows|)

/-- `LGBMEstimator.fit` (model.py:483-527) as a pure function.
`nRows` is `X_train.shape[0]`; `d1`, `d2`, `d3` are the wall-clock
durations of the up-to-three underlying training runs the call may
perform.  Each `_fit` stores its model in `_model`.  On the
`n_estimators <= 0` path the source reads `self._model.n_estimators`;
`Option.getD 0` stands for that read (Python raises there when
`_model` is `None`; no claim exercises that combination). -/
def lgbmFit (st : LGBMState) (budget : Option ℚ) (nRows : ℤ)
    (d1 d2 d3 : ℚ) : FitOutcome LGBMState :=
  match budget with
  | Option.none =>
      if 0 < st.nEstimators then
        ⟨{ st with model := some st.nEstimators }, [st.nEstimators], d1⟩
      else
        ⟨{ st with nEstimators := st.model.getD 0 }, [], 0⟩
  | some b =>
      let nIter := st.nEstimators
      if lgbmNeedsProbe st nRows && decide (1 < nIter) then
        let t1 := d1
        let st1 : LGBMState :=
          { st with nEstimators := 1, t1 := t1, model := some 1 }
        if b ≤ t1 ∨ nIter = 1 then
          ⟨st1, [1], t1⟩
        else
          let k := min nIter 4
          let t2 := d2
          let tpi := lgbmTimePerIter t1 t2 k
          let st2 : LGBMState :=
            { st1 with nEstimators := k, model := some k,
                       timePerIter := some tpi, trainSize := nRows }
          if b ≤ t1 + t2 ∨ nIter = k then
            ⟨st2, [1, k], t1 + t2⟩
          else
            let maxIter := lgbmMaxIter nIter b (t1 + t2) t1 tpi
            if maxIter ≤ k then
              ⟨st2, [1, k], t1 + t2⟩
            else
              ⟨{ st2 with nEstimators := maxIter, model := some maxIter },
                [1, k, maxIter], t1 + t2 + d3⟩
      else
        if 1 < nIter then
          let tpi := st.timePerIter.getD 0
          let maxIter := lgbmMaxIter nIter b 0 st.t1 tpi
          if 0 < maxIter then
            ⟨{ st with nEstimators := maxIter, model := some maxIter },
              [maxIter], d1⟩
          else
            ⟨{ st with nEstimators := st.model.getD 0 }, [], 0⟩
        else
          if 0 < st.nEstimators then
            ⟨{ st with model := some st.nEstimators }, [st.nEstimators], d1⟩
          else
            ⟨{ st with nEstimators := st.model.getD 0 }, [], 0⟩

/-- `CatBoostEstimator.fit` (model.py:885-988) as a pure function.
The probing guard additionally requires a truthy budget (`None` and
`0` both skip it) and `n_iter > 4`.  `_t1` here is the wall elapsed
time of the first calibration fit; the second estimate is computed
from the wall elapsed time `t1 + d2`.  The final fit trains on the
leading `max(0.9 n, n - 1000)` rows with the trailing rows as eval
set, still with the full chosen iteration count. -/
def catFit (st : CatState) (budget : Option ℚ) (nRows : ℤ)
    (d1 d2 d3 : ℚ) : FitOutcome CatState :=
  let nIter := st.nEstimators
  if catNeedsProbe st nRows && pyTruthy budget && decide (4 < nIter) then
    let b := budget.getD 0
    let t1 := d1
    let st1 : CatState :=
      { st with nEstimators := 1, smallmodel := some 1, t1 := t1 }
    if b ≤ t1 ∨ nIter = 1 then
      ⟨{ st1 with model := some 1 }, [1], t1⟩
    else
      let k := min nIter 4
      let tpi := catTimePerIter t1 (t1 + d2) k
      let st2 : CatState :=
        { st1 with nEstimators := k, smallmodel := some k,
                   timePerIter := some tpi, trainSize := nRows }
      if b ≤ t1 + d2 ∨ nIter = k then
        ⟨{ st2 with model := some k }, [1, k], t1 + d2⟩
      else
        let maxIter := catMaxIter nIter b (t1 + d2) t1 tpi
        let st2m : CatState := { st2 with model := st2.smallmodel }
        if maxIter ≤ k then
          ⟨st2m, [1, k], t1 + d2⟩
        else
          ⟨{ st2m with nEstimators := maxIter, model := some maxIter },
            [1, k, maxIter], t1 + d2 + d3⟩
  else
    if pyTruthy budget && decide (4 < nIter) then
      let b := budget.getD 0
      let tpi := st.timePerIter.getD 0
      let maxIter := catMaxIter nIter b 0 st.t1 tpi
      let stm : CatState := { st with model := st.smallmodel }
      if 0 < maxIter then
        ⟨{ stm with nEstimators := maxIter, model := some maxIter },
          [maxIter], d1⟩
      else
        ⟨{ stm with nEstimators := stm.model.getD 0 }, [], 0⟩
    else
      if 0 < nIter then
        ⟨{ st with model := some nIter }, [nIter], d1⟩
      else
        ⟨{ st with nEstimators := st.model.getD 0 }, [], 0⟩

theorem lgbmTimePerIter_pos (t1 t2 : ℚ) (k : ℤ) (h : 0 ≤ t1) (hk : 2 ≤ k) :
    0 < lgbmTimePerIter t1 t2 k := by
  unfold lgbmTimePerIter
  by_cases h1 : t1 < t2
  · rw [if_pos h1]
    apply div_pos (by linarith)
    have hc : (2:ℚ) ≤ (k:ℚ) := by exact_mod_cast hk
    linarith
  · rw [if_neg h1]
    by_cases h2 : t1 ≠ 0
    · rw [if_pos h2]
      exact lt_of_le_of_ne h (Ne.symm h2)
    · rw [if_neg h2]
      norm_num

theorem catTimePerIter_pos (t1 e2 : ℚ) (k : ℤ) (h : 0 < t1) :
    0 < catTimePerIter t1 e2 k := by
  unfold catTimePerIter
  by_cases h1 : (e2 - t1) / ((k:ℚ) - 1) ≤ 0
  · simpa [h1] using h
  · simp only [h1, if_false]
    linarith

/-- C1 counterexample: the Budget Solver does NOT floor its result at
1.  With requested iterations 5, budget 2, wall elapsed 0, stored
`t1 = 10` and `time_per_iter = 1` (a valid cached estimate), the code
computes `min(5, int((2 - 0 - 10)/1 + 1)) = -7`, not the claimed
`max(1, min(5, -7)) = 1`; the driver then performs no final fit at
all (zero training runs), instead reading the iteration count back
from the previously stored model. -/
theorem truncInt_intCast (n : ℤ) : truncInt (n : ℚ) = n := by
  unfold truncInt
  split <;> simp

theorem budget_solver_c1_cex :
    lgbmMaxIter 5 2 0 10 1 = -7 ∧ lgbmMaxIter 5 2 0 10 1 < 1 ∧
    (lgbmFit ⟨some 1, 100, 10, 5, some 3⟩ (some 2) 100 0 0 0).fits = [] ∧
    (lgbmFit ⟨some 1, 100, 10, 5, some 3⟩ (some 2) 100 0 0 0).state.nEstimators
      = 3 := by
  have harg : ((2:ℚ) - (0 + 0) - 10) / 1 + 1 = ((-7 : ℤ) : ℚ) := by norm_num
  have h7 : lgbmMaxIter 5 2 (0 + 0) 10 1 = -7 := by
    unfold lgbmMaxIter
    rw [harg, truncInt_intCast]
    decide
  have h7z : lgbmMaxIter 5 2 0 10 1 = -7 := by
    have : ((0:ℚ) + 0) = 0 := by norm_num
    rw [← this]
    exact h7
  have hnp : lgbmNeedsProbe ⟨some 1, 100, 10, 5, some 3⟩ 100 = false := by
    simp [lgbmNeedsProbe, pyTruthy]
  have hfit : lgbmFit ⟨some 1, 100, 10, 5, some 3⟩ (some 2) 100 0 0 0 =
      ⟨⟨some 1, 100, 10, 3, some 3⟩, [], 0⟩ := by
    simp only [lgbmFit, hnp, Bool.false_and, if_false, Option.getD_some, h7z]
    norm_num
  refine ⟨h7z, by rw [h7z]; decide, ?_, ?_⟩ <;> rw [hfit]

/-- C1 (amended): for a budgeted fit with a valid cached estimate
(`time_per_iter > 0`) and requested count `> 1`, the Budget Solver
computes `min(n_iter, int((budget - elapsed - t1)/time_per_iter + 1))`
with Python `int` truncation; whenever the remaining budget
`budget - elapsed - t1` is nonnegative this equals
`min(n_iter, floor(remaining/time_per_iter) + 1)` and is
automatically `≥ 1` (no explicit flooring is applied; with negative
remaining budget the result can be `≤ 0` and the final fit is
skipped).  The CatBoost solver computes the same value. -/
theorem budget_solver_c1_amended (nIter : ℤ) (b e t1 tpi : ℚ)
    (hn : 1 < nIter) (htpi : 0 < tpi) (hrem : 0 ≤ b - e - t1) :
    lgbmMaxIter nIter b e t1 tpi = min nIter (⌊(b - e - t1) / tpi⌋ + 1) ∧
    1 ≤ lgbmMaxIter nIter b e t1 tpi ∧
    lgbmMaxIter nIter b e t1 tpi ≤ nIter ∧
    catMaxIter nIter b e t1 tpi = lgbmMaxIter nIter b e t1 tpi := by
  have hx : 0 ≤ (b - e - t1) / tpi := div_nonneg hrem htpi.le
  have htr : truncInt ((b - e - t1) / tpi + 1) = ⌊(b - e - t1) / tpi⌋ + 1 := by
    unfold truncInt
    rw [if_pos (by linarith), Int.floor_add_one]
  refine ⟨?_, ?_, min_le_left _ _, ?_⟩
  · unfold lgbmMaxIter
    rw [htr]
  · unfold lgbmMaxIter
    rw [htr]
    have h1 : (0:ℤ) ≤ ⌊(b - e - t1) / tpi⌋ := Int.floor_nonneg.mpr hx
    exact le_min (by omega) (by omega)
  · unfold catMaxIter lgbmMaxIter
    rw [div_one]

theorem budget_solver_c1_amended_witness :
    lgbmMaxIter 100 10 (11/5) (1/2) (2/5) =
      min 100 (⌊((10:ℚ) - 11/5 - 1/2) / (2/5)⌋ + 1) ∧
    1 ≤ lgbmMaxIter 100 10 (11/5) (1/2) (2/5) ∧
    lgbmMaxIter 100 10 (11/5) (1/2) (2/5) ≤ 100 ∧
    catMaxIter 100 10 (11/5) (1/2) (2/5) =
      lgbmMaxIter 100 10 (11/5) (1/2) (2/5) :=
  budget_solver_c1_amended 100 10 (11/5) (1/2) (2/5)
    (by norm_num) (by norm_num) (by norm_num)

/-- C2: when probing is triggered (budget present, cache stale,
requested iterations above the probing threshold) and the 1-iteration
calibration fit consumes the whole budget (`t1 ≥ budget`), `fit`
performs no further training: the single 1-iteration model is stored
as the final model and the call returns `t1` immediately.  Holds for
both the LGBM family (threshold `n_iter > 1`) and the CatBoost family
(threshold `n_iter > 4`, truthy budget). -/
theorem probe_early_exit_c2 (st : LGBMState) (cst : CatState) (nRows : ℤ)
    (b d1 d2 d3 bc e1 e2 e3 : ℚ)
    (hprobe : lgbmNeedsProbe st nRows = true) (hn : 1 < st.nEstimators)
    (ht : b ≤ d1)
    (hcprobe : catNeedsProbe cst nRows = true) (hcn : 4 < cst.nEstimators)
    (hbc : bc ≠ 0) (htc : bc ≤ e1) :
    lgbmFit st (some b) nRows d1 d2 d3 =
      ⟨⟨st.timePerIter, st.trainSize, d1, 1, some 1⟩, [1], d1⟩ ∧
    catFit cst (some bc) nRows e1 e2 e3 =
      ⟨⟨cst.timePerIter, cst.trainSize, e1, 1, some 1, some 1⟩, [1], e1⟩ := by
  constructor
  · simp only [lgbmFit, hprobe, decide_eq_true hn, Bool.and_self, if_true,
      Bool.true_and]
    rw [if_pos (Or.inl ht)]
  · simp only [catFit, hcprobe, pyTruthy, bne_iff_ne, ne_eq, hbc,
      not_false_eq_true, decide_eq_true hcn, Bool.and_self, if_true,
      Bool.true_and, Option.getD_some]
    rw [if_pos (Or.inl htc)]
    rw [if_pos (by simp [hbc])]

theorem probe_early_exit_c2_witness :
    lgbmFit ⟨Option.none, 0, 0, 100, Option.none⟩ (some 1) 50 2 0 0 =
      ⟨⟨Option.none, 0, 2, 1, some 1⟩, [1], 2⟩ ∧
    catFit ⟨Option.none, 0, 0, 100, Option.none, Option.none⟩
        (some 1) 50 2 0 0 =
      ⟨⟨Option.none, 0, 2, 1, some 1, some 1⟩, [1], 2⟩ :=
  probe_early_exit_c2 ⟨Option.none, 0, 0, 100, Option.none⟩
    ⟨Option.none, 0, 0, 100, Option.none, Option.none⟩ 50 1 2 0 0 1 2 0 0
    (by rfl) (by norm_num) (by norm_num) (by rfl) (by norm_num)
    (by norm_num) (by norm_num)

/-- C3 counterexample: the CatBoost probe (model.py:928-932) has no
epsilon fallback.  With `t1 = 0` and a second calibration fit that
also measures zero elapsed time (possible under coarse clock
granularity), the cached `time_per_iter` is `0` — the claim requires
`0.001` and "never zero". -/
theorem tpi_fallback_c3_cex :
    catTimePerIter 0 0 4 = 0 ∧ catTimePerIter 0 0 4 ≠ 1/1000 := by
  have h : catTimePerIter 0 0 4 = 0 := by
    unfold catTimePerIter
    norm_num
  refine ⟨h, ?_⟩
  rw [h]
  norm_num

/-- C3 (amended): when the second calibration fit is not measurably
slower than the first, the LGBM probe caches `t1` when `t1 ≠ 0` and
the epsilon `0.001` when `t1 = 0`, so its cached value is always
positive (given nonnegative measured durations); the CatBoost probe
instead falls back to `t1` unconditionally — nonnegative, but zero
when `t1 = 0`, with no epsilon. -/
theorem tpi_fallback_c3_amended (t1 t2 e2 : ℚ) (k j : ℤ)
    (h1 : 0 ≤ t1) (h2 : t2 ≤ t1) (hj : 1 < j) (he : e2 ≤ t1) :
    lgbmTimePerIter t1 t2 k = (if t1 = 0 then 1/1000 else t1) ∧
    0 < lgbmTimePerIter t1 t2 k ∧
    catTimePerIter t1 e2 j = t1 ∧
    0 ≤ catTimePerIter t1 e2 j := by
  have hlg : lgbmTimePerIter t1 t2 k = (if t1 = 0 then 1/1000 else t1) := by
    unfold lgbmTimePerIter
    rw [if_neg (not_lt.mpr h2)]
    by_cases hz : t1 = 0
    · simp [hz]
    · simp [hz]
  have hpos : 0 < lgbmTimePerIter t1 t2 k := by
    rw [hlg]
    by_cases hz : t1 = 0
    · rw [if_pos hz]
      norm_num
    · rw [if_neg hz]
      exact lt_of_le_of_ne h1 (Ne.symm hz)
  have hcat : catTimePerIter t1 e2 j = t1 := by
    unfold catTimePerIter
    have hden : (0:ℚ) ≤ (j:ℚ) - 1 := by
      have hj1 : (1:ℚ) ≤ (j:ℚ) := by exact_mod_cast hj.le
      linarith
    have hnum : e2 - t1 ≤ 0 := by linarith
    have hest : (e2 - t1) / ((j:ℚ) - 1) ≤ 0 :=
      div_nonpos_iff.mpr (Or.inr ⟨hnum, hden⟩)
    simp [hest]
  refine ⟨hlg, hpos, hcat, ?_⟩
  rw [hcat]
  exact h1

theorem tpi_fallback_c3_amended_witness :
    lgbmTimePerIter 2 1 4 = (if (2:ℚ) = 0 then 1/1000 else 2) ∧
    0 < lgbmTimePerIter 2 1 4 ∧
    catTimePerIter 2 1 4 = 2 ∧
    0 ≤ catTimePerIter 2 1 4 :=
  tpi_fallback_c3_amended 2 1 1 4 4 (by norm_num) (by norm_num)
    (by norm_num) (by norm_num)

/-- C4: on a fresh estimator (no cached estimate) a budgeted fit with
requested iterations above the probing threshold triggers the probe
and caches `{time_per_iter, train_size}` with `train_size` equal to
the current row count; afterwards the staleness test asks exactly
whether the new row count differs from the cached one by more than 4,
so an equal-sized second call does not re-probe and a call differing
by more than 4 rows does.  Holds for both the LGBM per-instance cache
and the CatBoost class-wide cache (the latter needs a strictly
positive first-fit duration, since its fallback can cache a zero
estimate). -/
theorem probe_cache_c4 (st : LGBMState) (cst : CatState) (nRows m : ℤ)
    (b d1 d2 d3 bc e1 e2 e3 : ℚ)
    (h0 : st.timePerIter = Option.none) (hn : 1 < st.nEstimators)
    (hd1 : 0 ≤ d1) (hlt : d1 < b)
    (hc0 : cst.timePerIter = Option.none) (hcn : 4 < cst.nEstimators)
    (hce1 : 0 < e1) (hclt : e1 < bc) :
    lgbmNeedsProbe st nRows = true ∧
    (lgbmFit st (some b) nRows d1 d2 d3).fits.head? = some 1 ∧
    (lgbmFit st (some b) nRows d1 d2 d3).state.trainSize = nRows ∧
    (lgbmNeedsProbe (lgbmFit st (some b) nRows d1 d2 d3).state m =
      decide (4 < |nRows - m|)) ∧
    catNeedsProbe cst nRows = true ∧
    (catFit cst (some bc) nRows e1 e2 e3).fits.head? = some 1 ∧
    (catFit cst (some bc) nRows e1 e2 e3).state.trainSize = nRows ∧
    (catNeedsProbe (catFit cst (some bc) nRows e1 e2 e3).state m =
      decide (4 < |nRows - m|)) := by
  have hnp : lgbmNeedsProbe st nRows = true := by
    simp [lgbmNeedsProbe, pyTruthy, h0]
  have hno : ¬(b ≤ d1 ∨ st.nEstimators = 1) := by
    push_neg
    exact ⟨hlt, by omega⟩
  have hstep : (lgbmFit st (some b) nRows d1 d2 d3).state.timePerIter =
      some (lgbmTimePerIter d1 d2 (min st.nEstimators 4)) ∧
      (lgbmFit st (some b) nRows d1 d2 d3).state.trainSize = nRows ∧
      (lgbmFit st (some b) nRows d1 d2 d3).fits.head? = some 1 := by
    simp only [lgbmFit, hnp, decide_eq_true hn, Bool.and_self, if_true,
      Bool.true_and]
    rw [if_neg hno]
    split
    · exact ⟨rfl, rfl, rfl⟩
    · split
      · exact ⟨rfl, rfl, rfl⟩
      · exact ⟨rfl, rfl, rfl⟩
  have hpos : 0 < lgbmTimePerIter d1 d2 (min st.nEstimators 4) :=
    lgbmTimePerIter_pos d1 d2 _ hd1 (le_min (by omega) (by norm_num))
  have hneeds : lgbmNeedsProbe (lgbmFit st (some b) nRows d1 d2 d3).state m =
      decide (4 < |nRows - m|) := by
    unfold lgbmNeedsProbe
    rw [hstep.1, hstep.2.1]
    simp [pyTruthy, hpos.ne']
  have hcnp : catNeedsProbe cst nRows = true := by
    simp [catNeedsProbe, pyTruthy, hc0]
  have hcno : ¬(bc ≤ e1 ∨ cst.nEstimators = 1) := by
    push_neg
    exact ⟨hclt, by omega⟩
  have hcbc : (bc != 0) = true := by
    simp only [bne_iff_ne, ne_eq]
    intro hz
    rw [hz] at hclt
    linarith
  have hcstep : (catFit cst (some bc) nRows e1 e2 e3).state.timePerIter =
      some (catTimePerIter e1 (e1 + e2) (min cst.nEstimators 4)) ∧
      (catFit cst (some bc) nRows e1 e2 e3).state.trainSize = nRows ∧
      (catFit cst (some bc) nRows e1 e2 e3).fits.head? = some 1 := by
    simp only [catFit, hcnp, pyTruthy, hcbc, decide_eq_true hcn,
      Bool.and_self, if_true, Bool.true_and, Option.getD_some]
    rw [if_neg hcno]
    split
    · exact ⟨rfl, rfl, rfl⟩
    · split
      · exact ⟨rfl, rfl, rfl⟩
      · exact ⟨rfl, rfl, rfl⟩
  have hcpos : 0 < catTimePerIter e1 (e1 + e2) (min cst.nEstimators 4) :=
    catTimePerIter_pos e1 (e1 + e2) _ hce1
  have hcneeds : catNeedsProbe (catFit cst (some bc) nRows e1 e2 e3).state m =
      decide (4 < |nRows - m|) := by
    unfold catNeedsProbe
    rw [hcstep.1, hcstep.2.1]
    simp [pyTruthy, hcpos.ne']
  exact ⟨hnp, hstep.2.2, hstep.2.1, hneeds, hcnp, hcstep.2.2, hcstep.2.1,
    hcneeds⟩

theorem probe_cache_c4_witness :
    lgbmNeedsProbe ⟨Option.none, 0, 0, 10, Option.none⟩ 100 = true ∧
    (lgbmFit ⟨Option.none, 0, 0, 10, Option.none⟩ (some 5) 100 1 1 0).fits.head?
      = some 1 ∧
    (lgbmFit ⟨Option.none, 0, 0, 10, Option.none⟩ (some 5) 100 1 1 0).state.trainSize
      = 100 ∧
    (lgbmNeedsProbe
        (lgbmFit ⟨Option.none, 0, 0, 10, Option.none⟩ (some 5) 100 1 1 0).state 103 =
      decide (4 < |(100:ℤ) - 103|)) ∧
    catNeedsProbe ⟨Option.none, 0, 0, 10, Option.none, Option.none⟩ 100 = true ∧
    (catFit ⟨Option.none, 0, 0, 10, Option.none, Option.none⟩
        (some 5) 100 1 1 0).fits.head? = some 1 ∧
    (catFit ⟨Option.none, 0, 0, 10, Option.none, Option.none⟩
        (some 5) 100 1 1 0).state.trainSize = 100 ∧
    (catNeedsProbe
        (catFit ⟨Option.none, 0, 0, 10, Option.none, Option.none⟩
          (some 5) 100 1 1 0).state 103 =
      decide (4 < |(100:ℤ) - 103|)) :=
  probe_cache_c4 ⟨Option.none, 0, 0, 10, Option.none⟩
    ⟨Option.none, 0, 0, 10, Option.none, Option.none⟩ 100 103 5 1 1 0 5 1 1 0
    (by rfl) (by norm_num) (by norm_num) (by norm_num) (by rfl) (by norm_num)
    (by norm_num) (by norm_num)

/-- C5: when the budget is `None`, or the requested iteration count is
1, `fit` performs no calibration at all: exactly one training run with
the full requested iteration count, which becomes the stored model.
Holds for both the LGBM and the CatBoost family. -/
theorem direct_fit_c5 (st : LGBMState) (cst : CatState) (budget : Option ℚ)
    (nRows : ℤ) (d1 d2 d3 e1 e2 e3 : ℚ)
    (hn : 1 ≤ st.nEstimators) (hcn : 1 ≤ cst.nEstimators)
    (h : budget = Option.none ∨ (st.nEstimators ≤ 1 ∧ cst.nEstimators ≤ 1)) :
    lgbmFit st budget nRows d1 d2 d3 =
      ⟨⟨st.timePerIter, st.trainSize, st.t1, st.nEstimators,
        some st.nEstimators⟩, [st.nEstimators], d1⟩ ∧
    catFit cst budget nRows e1 e2 e3 =
      ⟨⟨cst.timePerIter, cst.trainSize, cst.t1, cst.nEstimators,
        some cst.nEstimators, cst.smallmodel⟩, [cst.nEstimators], e1⟩ := by
  rcases h with h | ⟨h1, h2⟩
  · subst h
    constructor
    · simp only [lgbmFit]
      rw [if_pos (show (0:ℤ) < st.nEstimators by omega)]
    · simp only [catFit, pyTruthy, Bool.false_and, Bool.and_false,
        Bool.false_eq_true, if_false]
      rw [if_pos (show (0:ℤ) < cst.nEstimators by omega)]
  · have he1 : st.nEstimators = 1 := by omega
    have he2 : cst.nEstimators = 1 := by omega
    cases budget with
    | none =>
        constructor
        · simp only [lgbmFit]
          rw [if_pos (show (0:ℤ) < st.nEstimators by omega)]
        · simp only [catFit, pyTruthy, Bool.false_and, Bool.and_false,
            Bool.false_eq_true, if_false]
          rw [if_pos (show (0:ℤ) < cst.nEstimators by omega)]
    | some b =>
        constructor
        · simp [lgbmFit, he1]
        · simp [catFit, he2]

theorem direct_fit_c5_witness :
    lgbmFit ⟨Option.none, 0, 0, 7, Option.none⟩ Option.none 50 3 0 0 =
      ⟨⟨Option.none, 0, 0, 7, some 7⟩, [7], 3⟩ ∧
    catFit ⟨Option.none, 0, 0, 9, Option.none, Option.none⟩
        Option.none 50 3 0 0 =
      ⟨⟨Option.none, 0, 0, 9, some 9, Option.none⟩, [9], 3⟩ :=
  direct_fit_c5 ⟨Option.none, 0, 0, 7, Option.none⟩
    ⟨Option.none, 0, 0, 9, Option.none, Option.none⟩ Option.none 50 3 0 0 3 0 0
    (by norm_num) (by norm_num) (Or.inl rfl)

/-- `BaseEstimator.predict` (model.py:126-140): when a model is stored,
delegate to it (the stored model is abstracted as a function from the
row count to a prediction vector); when `_model` is `None`, return
`np.ones(X_test.shape[0])` instead of raising. -/
def basePredict (model : Option (ℕ → List ℚ)) (nRows : ℕ) : List ℚ :=
  match model with
  | some f => f nRows
  | Option.none => List.replicate nRows 1

/-- `ARIMA.predict` (model.py:1172-1197): the test input is either an
integer number of forecast steps (`Sum.inl`) or a dataframe with a
row count (`Sum.inr`); with no stored model it returns
`np.ones(X_test if isinstance(X_test, int) else X_test.shape[0])`. -/
def arimaPredict (model : Option (ℕ → List ℚ)) (xTest : ℕ ⊕ ℕ) : List ℚ :=
  let n := match xTest with
    | Sum.inl steps => steps
    | Sum.inr rows => rows
  match model with
  | some f => f n
  | Option.none => List.replicate n 1

/-- C6: on an estimator with no stored model, `predict` does not
raise: it returns the all-ones vector whose length is the number of
rows of the input (for ARIMA, the requested step count when the input
is an integer). -/
theorem predict_fallback_c6 (n s : ℕ) :
    basePredict Option.none n = List.replicate n 1 ∧
    (basePredict Option.none n).length = n ∧
    (∀ x ∈ basePredict Option.none n, x = 1) ∧
    arimaPredict Option.none (Sum.inr n) = List.replicate n 1 ∧
    arimaPredict Option.none (Sum.inl s) = List.replicate s 1 := by
  refine ⟨rfl, by simp [basePredict], ?_, rfl, rfl⟩
  intro x hx
  simp only [basePredict] at hx
  exact List.eq_of_mem_replicate hx

/-- A hyperparameter domain as declared by `search_space`. -/
inductive Domain where
  | lograndint : ℤ → ℤ → Domain
  | loguniform : ℚ → ℚ → Domain
  | uniformQ : ℚ → ℚ → Domain
  | quniform : ℚ → ℚ → ℚ → Domain
  | choiceD : List String → Domain
  | constInt : ℤ → Domain
deriving DecidableEq, Repr

/-- `LGBMEstimator.search_space` (model.py:392-434). -/
def lgbmSearchSpace (dataSize : ℤ) : List (String × Domain) :=
  let upper := min 32768 dataSize
  [("n_estimators", Domain.lograndint 4 upper),
    ("num_leaves", Domain.lograndint 4 upper),
    ("min_child_samples", Domain.lograndint 2 (2 ^ 7 + 1)),
    ("learning_rate", Domain.loguniform (1/1024) 1),
    ("log_max_bin", Domain.lograndint 3 11),
    ("colsample_bytree", Domain.uniformQ (1/100) 1),
    ("reg_alpha", Domain.loguniform (1/1024) 1024),
    ("reg_lambda", Domain.loguniform (1/1024) 1024)]

/-- Python 3 `round`: banker's rounding (round half to even). -/
def pyRound (q : ℚ) : ℤ :=
  let f := ⌊q⌋
  if q - f < 1/2 then f
  else if 1/2 < q - f then f + 1
  else if f % 2 = 0 then f else f + 1

/-- Upper bound of CatBoost's `early_stopping_rounds` domain
(model.py:804): `max(min(round(1500000 / data_size), 150), 12)`. -/
def catEsUpper (dataSize : ℤ) : ℤ :=
  max (min (pyRound (1500000 / (dataSize : ℚ))) 150) 12

/-- `CatBoostEstimator.search_space` (model.py:802-819). -/
def catSearchSpace (dataSize : ℤ) : List (String × Domain) :=
  [("early_stopping_rounds", Domain.lograndint 10 (catEsUpper dataSize)),
    ("learning_rate", Domain.loguniform (1/200) (1/5)),
    ("n_estimators", Domain.constInt 8192)]

/-- C9 counterexample: `search_space` integer domains are not all
bounded by `data_size`.  For `data_size = 10`, LGBM's
`min_child_samples` domain is `lograndint(2, 129)` and `log_max_bin`
is `lograndint(3, 11)`, both with upper bounds exceeding 10; for
`data_size = 5`, CatBoost's `early_stopping_rounds` domain has upper
bound 150 > 5. -/
theorem search_space_c9_cex :
    lookupKey "min_child_samples" (lgbmSearchSpace 10) =
      some (Domain.lograndint 2 129) ∧ (10:ℤ) < 129 ∧
    lookupKey "log_max_bin" (lgbmSearchSpace 10) =
      some (Domain.lograndint 3 11) ∧ (10:ℤ) < 11 ∧
    catEsUpper 5 = 150 ∧ (5:ℤ) < 150 := by
  refine ⟨rfl, by norm_num, rfl, by norm_num, ?_, by norm_num⟩
  have h : ((1500000:ℚ) / ((5:ℤ):ℚ)) = ((300000:ℤ):ℚ) := by norm_num
  unfold catEsUpper pyRound
  rw [h, Int.floor_intCast]
  norm_num

/-- C9 (amended): only the `n_estimators` and `num_leaves` domains of
the LGBM search space are bounded by `data_size`: their upper bound is
`min(32768, data_size) ≤ data_size`.  The `min_child_samples` (cap
129) and `log_max_bin` (cap 11) domains, and CatBoost's
`early_stopping_rounds` domain (always between 12 and 150), are
independent of `data_size` and may exceed it for small data sizes. -/
theorem search_space_c9_amended (dataSize : ℤ) :
    lookupKey "n_estimators" (lgbmSearchSpace dataSize) =
      some (Domain.lograndint 4 (min 32768 dataSize)) ∧
    lookupKey "num_leaves" (lgbmSearchSpace dataSize) =
      some (Domain.lograndint 4 (min 32768 dataSize)) ∧
    min 32768 dataSize ≤ dataSize ∧
    min 32768 dataSize ≤ 32768 ∧
    lookupKey "min_child_samples" (lgbmSearchSpace dataSize) =
      some (Domain.lograndint 2 129) ∧
    lookupKey "log_max_bin" (lgbmSearchSpace dataSize) =
      some (Domain.lograndint 3 11) ∧
    lookupKey "early_stopping_rounds" (catSearchSpace dataSize) =
      some (Domain.lograndint 10 (catEsUpper dataSize)) ∧
    12 ≤ catEsUpper dataSize ∧ catEsUpper dataSize ≤ 150 := by
  refine ⟨rfl, rfl, min_le_right _ _, min_le_left _ _, rfl, rfl, rfl,
    le_max_right _ _, ?_⟩
  exact max_le (min_le_right _ _) (by norm_num)

/-- Outcome of `XGBoostEstimator.fit`: the post-call `self.params`
and the iteration counts passed to `xgb.train` (exactly one entry on
the success path). -/
structure XgbOutcome where
  params : Config
  fits : List PyVal
deriving DecidableEq, Repr

/-- Truthiness of `isinstance(objective, str)` on the value read by
`params.get("objective")` in `XGBoostEstimator.fit`. -/
def xgbObjIsStr : Option PyVal → Bool
  | some (PyVal.str _) => true
  | _ => false

/-- `XGBoostEstimator.fit` (model.py:604-630) as a pure function on
`self.params`.  `sparse` is `issparse(X_train)`; `budget` is accepted
and never read, exactly as in the source.  Steps, in source order:
set `tree_method = "auto"` for sparse input; read
`objective = params.get("objective")`; if it is not a string, pass it
as the `obj` callback and delete it from params; pop `n_estimators`
(a `KeyError` — modelled `none` — if absent); call `xgb.train` once
with the popped count; restore `params["objective"] = objective`
(inserting `None` if it was absent) and
`params["n_estimators"]`. -/
def xgboostFit (params : Config) (sparse : Bool) (budget : Option ℚ) :
    Option XgbOutcome :=
  let p0 := if sparse then setKey "tree_method" (PyVal.str "auto") params
            else params
  let objective := lookupKey "objective" p0
  let p1 := if xgbObjIsStr objective then p0 else eraseKey "objective" p0
  match lookupKey "n_estimators" p1 with
  | Option.none => Option.none
  | some nv =>
      let p2 := eraseKey "n_estimators" p1
      let p3 := setKey "objective" (objective.getD PyVal.pynone) p2
      let p4 := setKey "n_estimators" nv p3
      some ⟨p4, [nv]⟩

/-- C10: `XGBoostEstimator.fit` is budget-oblivious: for every budget
value (None, zero, or positive) it performs exactly one training run
with the complete requested `n_estimators` count, never probing and
never reducing the count; afterwards `self.params` holds the same
`n_estimators` binding and the same `objective` value (in the
`.get`-sense: `None` for an absent key) as before the call. -/
theorem xgb_frame_c10 (params : Config) (sparse : Bool) (b b2 : Option ℚ)
    (nv : PyVal) (hn : lookupKey "n_estimators" params = some nv) :
    xgboostFit params sparse b = xgboostFit params sparse b2 ∧
    ∃ p4 : Config, xgboostFit params sparse b = some ⟨p4, [nv]⟩ ∧
      lookupKey "n_estimators" p4 = some nv ∧
      (lookupKey "objective" p4).getD PyVal.pynone =
        (lookupKey "objective" params).getD PyVal.pynone := by
  refine ⟨rfl, ?_⟩
  have hnen : lookupKey "n_estimators"
      (if sparse then setKey "tree_method" (PyVal.str "auto") params
        else params) = lookupKey "n_estimators" params := by
    cases sparse
    · simp
    · simp [lookupKey_setKey_ne _ _ _ _ (show "n_estimators" ≠ "tree_method"
        by decide)]
  have hobj : lookupKey "objective"
      (if sparse then setKey "tree_method" (PyVal.str "auto") params
        else params) = lookupKey "objective" params := by
    cases sparse
    · simp
    · simp [lookupKey_setKey_ne _ _ _ _ (show "objective" ≠ "tree_method"
        by decide)]
  have hsc : lookupKey "n_estimators"
      (if xgbObjIsStr (lookupKey "objective" params) then
        (if sparse then setKey "tree_method" (PyVal.str "auto") params
          else params)
        else eraseKey "objective"
          (if sparse then setKey "tree_method" (PyVal.str "auto") params
            else params)) = some nv := by
    split
    · rw [hnen]
      exact hn
    · rw [lookupKey_eraseKey_ne _ _ _ (show "n_estimators" ≠ "objective"
        by decide), hnen]
      exact hn
  simp only [xgboostFit, hobj]
  rw [hsc]
  refine ⟨_, rfl, lookupKey_setKey_self _ _ _, ?_⟩
  rw [lookupKey_setKey_ne _ _ _ _ (show "objective" ≠ "n_estimators"
    by decide), lookupKey_setKey_self]
  rfl

theorem xgb_frame_c10_witness :
    xgboostFit [("n_estimators", PyVal.int 50),
        ("objective", PyVal.str "squarederror")] false (some 1) =
      xgboostFit [("n_estimators", PyVal.int 50),
        ("objective", PyVal.str "squarederror")] false Option.none ∧
    ∃ p4 : Config,
      xgboostFit [("n_estimators", PyVal.int 50),
          ("objective", PyVal.str "squarederror")] false (some 1) =
        some ⟨p4, [PyVal.int 50]⟩ ∧
      lookupKey "n_estimators" p4 = some (PyVal.int 50) ∧
      (lookupKey "objective" p4).getD PyVal.pynone =
        (lookupKey "objective" [("n_estimators", PyVal.int 50),
          ("objective", PyVal.str "squarederror")]).getD PyVal.pynone :=
  xgb_frame_c10 [("n_estimators", PyVal.int 50),
    ("objective", PyVal.str "squarederror")] false (some 1) Option.none
    (PyVal.int 50) (by decide)
